import Mathlib

/-!
Verification development for the weather-api repository.

The program under study is the Next.js route handler in
`src/app/predict/page.tsx` (the `POST` handler and its helper functions).
We give a shallow embedding of its pure computations:

* JS numbers are modelled as exact rationals (`ℚ`); `Math.round` is
  `jsRound`, proven equal to Mathlib's `round` (round half toward positive
  infinity, as in JS); `Math.exp` is `Real.exp`.
* JS `Date` values are modelled as an epoch-millisecond integer when only
  arithmetic is involved, and as a civil (year, month, day) triple where the
  code manipulates UTC calendar fields.  `new Date(string)` parsing of
  non-ISO strings is implementation-defined in JS and is therefore an
  oracle parameter (`Env.jsParse`) of the embedded handler.
* fallible steps return `Except`/`Option`; a thrown JS exception is an
  `Except.error` carrying the exception message.
* external I/O (the OpenRouter call, Nominatim geocoding, the Open-Meteo
  and NASA POWER fetches) is modelled by oracle functions in an `Env`
  record giving each call's outcome; the pure post-processing of each
  response is embedded from the source.
* the handler also returns a trace (`List Eff`) recording which external
  calls and which parser invocations happened, so that claims of the form
  "X is not attempted" are expressible.
-/

namespace WeatherApi

/-- JS `a ?? b` (nullish coalescing) on nullable values. -/
def jsNullish {α : Type} (a b : Option α) : Option α :=
  match a with
  | some v => some v
  | none => b

/-- Truthiness of a nullable JS string: `undefined`, `null` and `""` are falsy. -/
def strTruthy : Option String → Bool
  | none => false
  | some s => s ≠ ""

/-- JS `a || b` on nullable strings (falsy `a`, i.e. absent or empty, yields `b`). -/
def orStr (a b : Option String) : Option String :=
  if strTruthy a then a else b

/-- JS whitespace for `trim` / `\s`, restricted to the ASCII range
(space, tab, newline, carriage return, form feed, vertical tab); the strings
handled by this program do not use exotic Unicode whitespace. -/
def isWsJS (c : Char) : Bool :=
  c = ' ' || c = '\t' || c = '\n' || c = '\r' || c = '\x0c' || c = '\x0b'

/-- JS `String.prototype.trim` on a character list. -/
def jsTrim (l : List Char) : List Char :=
  ((l.dropWhile isWsJS).reverse.dropWhile isWsJS).reverse

/-- JS regex word character (`\w` = `[A-Za-z0-9_]`); note that accented
letters such as `à` are NOT word characters for `\b`. -/
def isWordJS (c : Char) : Bool :=
  ('A' ≤ c && c ≤ 'Z') || ('a' ≤ c && c ≤ 'z') || ('0' ≤ c && c ≤ '9') || c = '_'

/-- JS `String.prototype.toLowerCase` restricted to the Basic Latin and
Latin-1 ranges (all characters this program's vocabulary uses); other
characters are returned unchanged. -/
def jsToLower (c : Char) : Char :=
  if 'A' ≤ c && c ≤ 'Z' then Char.ofNat (c.toNat + 32)
  else if 0xC0 ≤ c.toNat && c.toNat ≤ 0xD6 then Char.ofNat (c.toNat + 32)
  else if 0xD8 ≤ c.toNat && c.toNat ≤ 0xDE then Char.ofNat (c.toNat + 32)
  else c

/-- Digit test for JS `\d`. -/
def isDigitJS (c : Char) : Bool :=
  '0' ≤ c && c ≤ '9'

/-- Value of a digit list as read by `parseInt` on an all-digit string. -/
def digitsToNat (l : List Char) : Nat :=
  l.foldl (fun a c => a * 10 + (c.toNat - '0'.toNat)) 0

/-! ## Civil (proleptic Gregorian, UTC) calendar

JS `Date` stores epoch milliseconds; `Date.UTC(y, m-1, d)` normalizes
out-of-range day values by rolling into adjacent months, and
`toISOString().slice(0, 10)` renders the civil UTC date.  We model civil
dates as triples and epoch time as integer milliseconds. -/

/-- A civil UTC date: year, month (1-12), day. -/
structure Civil where
  y : Int
  m : Nat
  d : Nat
deriving DecidableEq, Repr

/-- Gregorian leap-year rule (as used by JS `Date`). -/
def isLeap (y : Int) : Bool :=
  y % 4 = 0 && (y % 100 ≠ 0 || y % 400 = 0)

/-- Days in a month of a given year. -/
def daysInMonth (y : Int) (m : Nat) : Nat :=
  if m = 1 then 31
  else if m = 2 then (if isLeap y then 29 else 28)
  else if m = 3 then 31
  else if m = 4 then 30
  else if m = 5 then 31
  else if m = 6 then 30
  else if m = 7 then 31
  else if m = 8 then 31
  else if m = 9 then 30
  else if m = 10 then 31
  else if m = 11 then 30
  else 31

/-- Normalization of `Date.UTC(y, m-1, d)` for `m ∈ [1,12]` and a day value
that may be `0` (previous month's last day) or exceed the month length
(rolls forward).  The regexes feeding this allow `0 ≤ d ≤ 99`, so a small
fuel bounds the forward rolls. -/
def normCivilAux : Nat → Int → Nat → Nat → Civil
  | 0, y, m, d => ⟨y, m, d⟩
  | fuel + 1, y, m, d =>
    if d = 0 then
      let y' := if m = 1 then y - 1 else y
      let m' := if m = 1 then 12 else m - 1
      ⟨y', m', daysInMonth y' m'⟩
    else if daysInMonth y m < d then
      let y' := if m = 12 then y + 1 else y
      let m' := if m = 12 then 1 else m + 1
      normCivilAux fuel y' m' (d - daysInMonth y m)
    else ⟨y, m, d⟩

/-- `Date.UTC` normalization entry point. -/
def normCivil (y : Int) (m d : Nat) : Civil :=
  normCivilAux 8 y m d

/-- Chronological strict order on civil dates (equals the order of the
underlying epoch timestamps for normalized dates, since both are
lexicographic in year, month, day at UTC midnight). -/
def civilLtB (a b : Civil) : Bool :=
  a.y < b.y || (a.y = b.y && (a.m < b.m || (a.m = b.m && a.d < b.d)))

/-- Civil date of an epoch day number (days since 1970-01-01); the standard
era-based conversion used to model `getUTCFullYear`/`toISOString`. -/
def civilFromDays (z0 : Int) : Civil :=
  let z := z0 + 719468
  let era := Int.fdiv z 146097
  let doe := z - era * 146097
  let yoe := Int.fdiv (doe - Int.fdiv doe 1460 + Int.fdiv doe 36524 - Int.fdiv doe 146096) 365
  let y := yoe + era * 400
  let doy := doe - (365 * yoe + Int.fdiv yoe 4 - Int.fdiv yoe 100)
  let mp := Int.fdiv (5 * doy + 2) 153
  let d := doy - Int.fdiv (153 * mp + 2) 5 + 1
  let m := if mp < 10 then mp + 3 else mp - 9
  ⟨(if m ≤ 2 then y + 1 else y), m.toNat, d.toNat⟩

/-- Zero-padded decimal rendering. -/
def padNat (width n : Nat) : String :=
  let s := toString n
  String.mk (List.replicate (width - s.length) '0') ++ s

/-- Render a civil date as `YYYY-MM-DD` (years of at most four digits, the
only case the program produces; `toISOString` uses an expanded form outside
that range). -/
def renderCivil (c : Civil) : String :=
  padNat 4 c.y.toNat ++ "-" ++ padNat 2 c.m ++ "-" ++ padNat 2 c.d

/-- Embeds `toISODate` (`d.toISOString().slice(0, 10)`) on a valid date
given as epoch milliseconds. -/
def toISODate (ms : Int) : String :=
  renderCivil (civilFromDays (Int.fdiv ms 86400000))

/-- JS `Math.round` on an (exact-rational) JS number: round half toward
positive infinity.  Defined through `Rat.floor` so that it evaluates by
kernel reduction; `jsRound_eq_round` identifies it with Mathlib's `round`. -/
def jsRound (q : ℚ) : ℤ :=
  (q + 1 / 2).floor

/-! ## The JS regexes of the handler

Each regex of the source is embedded as a dedicated scanner over the
character list, reproducing JS semantics: leftmost match, alternation tried
in order, greedy `x*`/`x+` (with the one backtracking point each pattern
actually has), lazy `+?`, and the ASCII-word-character `\b`. -/

/-- Word-character test for the previous character (`none` = start of input). -/
def prevIsWord : Option Char → Bool
  | none => false
  | some c => isWordJS c

/-- Character class `[a-zA-Zéèêëàâôûùîïç]` (month letters in the date regexes). -/
def isMonthChar (c : Char) : Bool :=
  ('a' ≤ c && c ≤ 'z') || ('A' ≤ c && c ≤ 'Z') ||
    c = 'é' || c = 'è' || c = 'ê' || c = 'ë' || c = 'à' || c = 'â' ||
    c = 'ô' || c = 'û' || c = 'ù' || c = 'î' || c = 'ï' || c = 'ç'

/-- Caseless literal match of an (already lowercase) word against the head
of the input, as JS `/word/i`. -/
def headCaseless : List Char → List Char → Bool
  | [], _ => true
  | _ :: _, [] => false
  | p :: ps, c :: cs => jsToLower c = p && headCaseless ps cs

/-- Generic global `replace(re, '')`: scan left to right, delete each
leftmost match (the matcher returns the match length at the current
position, given the previous character for `\b`), resume after it. -/
def replaceScan (m : Option Char → List Char → Option Nat) :
    Nat → Option Char → List Char → List Char
  | 0, _, _ => []
  | _, _, [] => []
  | fuel + 1, prev, c :: cs =>
    match m prev (c :: cs) with
    | some n => replaceScan m fuel (some ((c :: cs).getD (n - 1) c)) ((c :: cs).drop n)
    | none => c :: replaceScan m fuel (some c) cs

/-- Global delete of every match of a regex (matchers always consume at
least one character, so the fuel suffices). -/
def replaceAll (m : Option Char → List Char → Option Nat) (l : List Char) : List Char :=
  replaceScan m (l.length + 1) none l

/-- Matcher for `/\ble\s*\d{1,2}\s*[a-zA-Zéèêëàâôûùîïç]+/gi` (date fragment
deleted from the cleaned query).  The digit run must have length 1 or 2: a
longer run makes both greedy choices of `\d{1,2}` leave a digit in front of
the month letters, so the whole pattern fails there, as in JS. -/
def matchLeDate (prev : Option Char) (l : List Char) : Option Nat :=
  match l with
  | c1 :: c2 :: rest =>
    if !prevIsWord prev && (c1 = 'l' || c1 = 'L') && (c2 = 'e' || c2 = 'E') then
      let s1 := rest.takeWhile isWsJS
      let r1 := rest.drop s1.length
      let ds := r1.takeWhile isDigitJS
      if ds.length = 1 || ds.length = 2 then
        let r2 := r1.drop ds.length
        let s2 := r2.takeWhile isWsJS
        let r3 := r2.drop s2.length
        let ms := r3.takeWhile isMonthChar
        if 1 ≤ ms.length then some (2 + s1.length + ds.length + s2.length + ms.length)
        else none
      else none
    else none
  | _ => none

/-- Activity vocabulary of the cleaned-query delete and of the fallback
parser's activity regex, in the source's alternation order. -/
def activityWords : List String :=
  ["vacances", "rando", "plage", "mariage", "sport", "extérieur", "exterieur"]

/-- Matcher for `/\b(vacances|rando|plage|mariage|sport|extérieur|exterieur)\b/gi`. -/
def matchActivityWord (prev : Option Char) (l : List Char) : Option Nat :=
  if prevIsWord prev then none
  else
    (activityWords.find? (fun w =>
      headCaseless w.data l &&
        (match (l.drop w.data.length).head? with
         | some c => !isWordJS c
         | none => true))).map (fun w => w.data.length)

/-- Matcher for `/\bà\b/gi`.  Because `à` is not a JS word character, both
boundaries only hold when `à` is surrounded by word characters on both
sides, so the typical standalone " à " is never matched. -/
def matchStandaloneA (prev : Option Char) (l : List Char) : Option Nat :=
  match l with
  | c :: rest =>
    if (c = 'à' || c = 'À') && prevIsWord prev &&
        (match rest.head? with | some c2 => isWordJS c2 | none => false) then
      some 1
    else none
  | [] => none

/-- Matcher for `/\b20\d{2}\b/g`. -/
def matchYearNum (prev : Option Char) (l : List Char) : Option Nat :=
  if prevIsWord prev then none
  else
    match l with
    | c1 :: c2 :: c3 :: c4 :: rest =>
      if c1 = '2' && c2 = '0' && isDigitJS c3 && isDigitJS c4 &&
          (match rest.head? with | some c5 => !isWordJS c5 | none => true) then
        some 4
      else none
    | _ => none

/-- Matcher for `/\b\d{1,4}\b/g`: a maximal digit run of length 1-4 followed
by a non-word character or the end (a longer run fails at every greedy
choice, as in JS). -/
def matchBareNum (prev : Option Char) (l : List Char) : Option Nat :=
  if prevIsWord prev then none
  else
    let ds := l.takeWhile isDigitJS
    if 1 ≤ ds.length && ds.length ≤ 4 &&
        (match (l.drop ds.length).head? with | some c => !isWordJS c | none => true) then
      some ds.length
    else none

/-- Embeds the "aggressively stripped query" of the coordinate-resolution
chain (the five chained `replace`s and the final `trim` of the handler). -/
def cleanQuery (query : String) : String :=
  let l1 := replaceAll matchLeDate query.data
  let l2 := replaceAll matchActivityWord l1
  let l3 := replaceAll matchStandaloneA l2
  let l4 := replaceAll matchYearNum l3
  let l5 := replaceAll matchBareNum l4
  String.mk (jsTrim l5)

/-- Month-name set skipped by `extractCandidateLocation`. -/
def eclMonths : List String :=
  ["janvier", "février", "fevrier", "mars", "avril", "mai", "juin", "juillet",
   "août", "aout", "septembre", "octobre", "novembre", "décembre", "decembre"]

/-- Stop-word set skipped by `extractCandidateLocation`. -/
def eclStops : List String :=
  ["vacances", "le", "la", "les", "à", "a", "en", "au", "aux", "de", "du", "des"]

/-- Character class `[A-ZÀ-Ö]` (first character of a candidate token). -/
def isStartECL (c : Char) : Bool :=
  ('A' ≤ c && c ≤ 'Z') || (0xC0 ≤ c.toNat && c.toNat ≤ 0xD6)

/-- Character class `[A-Za-zÀ-ÖØ-öø-ÿ' -]` (continuation of a candidate
token, and the captured location of the fallback parser). -/
def isContECL (c : Char) : Bool :=
  isStartECL c || ('a' ≤ c && c ≤ 'z') || (0xD8 ≤ c.toNat && c.toNat ≤ 0xF6) ||
    (0xF8 ≤ c.toNat && c.toNat ≤ 0xFF) || c = '\'' || c = ' ' || c = '-'

/-- All matches of `/[A-ZÀ-Ö][A-Za-zÀ-ÖØ-öø-ÿ' -]+/g` in order (the `+`
needs at least one continuation character; matches do not overlap). -/
def tokensECL : Nat → List Char → List (List Char)
  | 0, _ => []
  | _, [] => []
  | fuel + 1, c :: cs =>
    if isStartECL c then
      let run := cs.takeWhile isContECL
      if run.isEmpty then tokensECL fuel cs
      else (c :: run) :: tokensECL fuel (cs.drop run.length)
    else tokensECL fuel cs

/-- Test `/^20\d{2}$/` on a normalized token. -/
def isYearToken : List Char → Bool
  | [c1, c2, c3, c4] => c1 = '2' && c2 = '0' && isDigitJS c3 && isDigitJS c4
  | _ => false

/-- First token surviving the month/stop-word/year filters, trimmed. -/
def eclFirst : List (List Char) → Option String
  | [] => none
  | t :: ts =>
    let tt := jsTrim t
    let norm := String.mk (tt.map jsToLower)
    if eclMonths.contains norm || eclStops.contains norm || isYearToken norm.data then
      eclFirst ts
    else some (String.mk tt)

/-- Embeds `extractCandidateLocation`. -/
def extractCandidateLocation (query : String) : Option String :=
  let q := jsTrim query.data
  if q.isEmpty then none
  else eclFirst (tokensECL (q.length + 1) q)

/-- First (leftmost, alternation in source order) match of the fallback
activity regex `/(vacances|rando|plage|mariage|sport|extérieur|exterieur)/i`;
the captured text lowercased equals the matched (all-lowercase) alternative. -/
def fbActivityAux : Nat → List Char → Option String
  | 0, _ => none
  | _, [] => none
  | fuel + 1, c :: cs =>
    match activityWords.find? (fun w => headCaseless w.data (c :: cs)) with
    | some w => some w
    | none => fbActivityAux fuel cs

/-- Activity extraction of `parseFrenchFallback`. -/
def fbActivity (l : List Char) : Option String :=
  fbActivityAux (l.length + 1) l

/-- Continuation `(?:\s+le\b|$)` of the fallback location regex. -/
def fbLocCont (rest : List Char) : Bool :=
  match rest with
  | [] => true
  | _ =>
    let s := rest.takeWhile isWsJS
    if s.isEmpty then false
    else
      match rest.drop s.length with
      | c1 :: c2 :: r =>
        (c1 = 'l' || c1 = 'L') && (c2 = 'e' || c2 = 'E') &&
          (match r.head? with | some c3 => !isWordJS c3 | none => true)
      | _ => false

/-- Lazy growth of the captured group `([A-Za-zÀ-ÖØ-öø-ÿ' -]+?)`: the
shortest nonempty capture whose continuation matches. -/
def fbLocGrow : Nat → List Char → List Char → Option (List Char)
  | 0, _, _ => none
  | fuel + 1, acc, rem =>
    if fbLocCont rem then some acc.reverse
    else
      match rem with
      | c :: cs => if isContECL c then fbLocGrow fuel (c :: acc) cs else none
      | [] => none

/-- Start of the capture (at least one class character). -/
def fbLocCapture (l : List Char) : Option (List Char) :=
  match l with
  | c :: cs => if isContECL c then fbLocGrow (cs.length + 1) [c] cs else none
  | [] => none

/-- Backtracking over the greedy `\s+` after the preposition: try the
maximal whitespace run first, then shorter nonempty runs. -/
def fbLocTryWs : Nat → List Char → Option (List Char)
  | 0, _ => none
  | r + 1, l =>
    match fbLocCapture (l.drop (r + 1)) with
    | some cap => some cap
    | none => fbLocTryWs r l

/-- Leftmost match of `/(?:\bà|\ba)\s+([A-Za-zÀ-ÖØ-öø-ÿ' -]+?)(?:\s+le\b|$)/i`.
Since `à` is not a JS word character, the `\bà` branch needs a word
character right before the `à`, and the `\ba` branch needs a non-word
character (or the start) before the `a`. -/
def fbLocScan : Nat → Option Char → List Char → Option (List Char)
  | 0, _, _ => none
  | _, _, [] => none
  | fuel + 1, prev, c :: cs =>
    let here : Bool :=
      ((c = 'à' || c = 'À') && prevIsWord prev) ||
        ((c = 'a' || c = 'A') && !prevIsWord prev)
    if here then
      let wsLen := (cs.takeWhile isWsJS).length
      match (if wsLen = 0 then none else fbLocTryWs wsLen cs) with
      | some cap => some cap
      | none => fbLocScan fuel (some c) cs
    else fbLocScan fuel (some c) cs

/-- Location extraction of `parseFrenchFallback` (the raw capture; the
caller trims it). -/
def fbLocation (l : List Char) : Option (List Char) :=
  fbLocScan (l.length + 1) none l

/-- Try the fallback date regex
`/\ble\s*(\d{1,2})\s*([a-zA-Zéèêëàâôûùîïç]+)\s*(\d{4})?/i` at the current
position, returning the three captures (`(\d{4})?` takes exactly four
digits when at least four follow, else captures nothing). -/
def fbDateTryAt (prev : Option Char) (l : List Char) :
    Option (List Char × List Char × Option (List Char)) :=
  match l with
  | c1 :: c2 :: rest =>
    if !prevIsWord prev && (c1 = 'l' || c1 = 'L') && (c2 = 'e' || c2 = 'E') then
      let s1 := rest.takeWhile isWsJS
      let r1 := rest.drop s1.length
      let ds := r1.takeWhile isDigitJS
      if ds.length = 1 || ds.length = 2 then
        let r2 := r1.drop ds.length
        let s2 := r2.takeWhile isWsJS
        let r3 := r2.drop s2.length
        let ms := r3.takeWhile isMonthChar
        if 1 ≤ ms.length then
          let r4 := r3.drop ms.length
          let s3 := r4.takeWhile isWsJS
          let r5 := r4.drop s3.length
          let ys := r5.takeWhile isDigitJS
          some (ds, ms, if 4 ≤ ys.length then some (ys.take 4) else none)
        else none
      else none
    else none
  | _ => none

/-- Leftmost match of the fallback date regex. -/
def fbDateScan : Nat → Option Char → List Char →
    Option (List Char × List Char × Option (List Char))
  | 0, _, _ => none
  | _, _, [] => none
  | fuel + 1, prev, c :: cs =>
    match fbDateTryAt prev (c :: cs) with
    | some r => some r
    | none => fbDateScan fuel (some c) cs

/-- Date-fragment extraction of `parseFrenchFallback`. -/
def fbDate (l : List Char) : Option (List Char × List Char × Option (List Char)) :=
  fbDateScan (l.length + 1) none l

/-- The French month table of `parseFrenchFallback`. -/
def frenchMonths : List (String × Nat) :=
  [("janvier", 1), ("fevrier", 2), ("février", 2), ("mars", 3), ("avril", 4),
   ("mai", 5), ("juin", 6), ("juillet", 7), ("aout", 8), ("août", 8),
   ("septembre", 9), ("octobre", 10), ("novembre", 11), ("decembre", 12),
   ("décembre", 12)]

/-- Date resolution of `parseFrenchFallback` on the regex captures: build
`Date.UTC(baseYear, month-1, day)`, and when no (truthy) year was given and
the date lies strictly before today's UTC midnight, add one year via
`setUTCFullYear` (which renormalizes Feb 29 to Mar 1 in a non-leap year).
`today` is the current UTC civil date. -/
def parseFrenchDateParts (day : Nat) (monthName : String) (yearGiven : Option Nat)
    (today : Civil) : Option String :=
  match frenchMonths.lookup monthName with
  | none => none
  | some month =>
    let baseYear : Int :=
      match yearGiven with
      | some y => if 1900 < y then (y : Int) else today.y
      | none => today.y
    let target := normCivil baseYear month day
    let noYear : Bool :=
      match yearGiven with
      | some y => y = 0
      | none => true
    let target' :=
      if noYear && civilLtB target ⟨today.y, today.m, today.d⟩ then
        normCivil (target.y + 1) target.m target.d
      else target
    some (renderCivil target')

/-- The partial intent `{location?, dateISO?, activity?}` produced by either
parser. -/
structure ParsedIntent where
  location : Option String
  dateISO : Option String
  activity : Option String
deriving DecidableEq, Repr

/-- Embeds `parseFrenchFallback` (the regex-only heuristic parser). -/
def parseFrenchFallback (query : String) (today : Civil) : ParsedIntent :=
  let l := query.data
  let activity := fbActivity l
  let location := (fbLocation l).map (fun c => String.mk (jsTrim c))
  let dateISO :=
    match fbDate l with
    | some (ds, ms, ys) =>
      parseFrenchDateParts (digitsToNat ds) (String.mk (ms.map jsToLower))
        (ys.map digitsToNat) today
    | none => none
  ⟨location, dateISO, activity⟩

/-! ## Data model of the pipeline -/

/-- The `Forecast` record of the source (all fields nullable JS numbers). -/
structure Forecast where
  tempC : Option ℚ
  windSpeed : Option ℚ
  cloud : Option ℚ
  precipMm : Option ℚ
  precipProb : Option ℚ
deriving DecidableEq, Repr

/-- The `{histProb, meanTemp, meanWind}` record returned by the two
historical fetchers. -/
structure Hist where
  histProb : Option ℚ
  meanTemp : Option ℚ
  meanWind : Option ℚ
deriving DecidableEq, Repr

/-- One fulfilled per-year result `{p, t, w}` (each field may be JSON
`null`). -/
structure YearVal where
  p : Option ℚ
  t : Option ℚ
  w : Option ℚ
deriving DecidableEq, Repr

/-- A geocoded coordinate. -/
structure Coord where
  lat : ℚ
  lon : ℚ
deriving DecidableEq, Repr

/-! ## Pure computation cores of the fetchers and the blend -/

/-- Embeds `labelWind`. -/
def labelWind : Option ℚ → String
  | none => "inconnu"
  | some ms => if 10 < ms then "fort" else if 5 < ms then "modéré" else "faible"

/-- Embeds `riskFromPrecipMm` (`Math.exp` is the real exponential, hence
this definition is not executable; every concrete run below stays on
branches that never force it). -/
noncomputable def riskFromPrecipMm : Option ℚ → ℤ
  | none => 50
  | some mm =>
    let x : ℝ := ((max 0 mm : ℚ) : ℝ)
    let risk : ℤ := round ((100 : ℝ) / (1 + Real.exp (-(x - 3))))
    min 100 (max 0 risk)

/-- JS `String.prototype.endsWith`, on the character lists (kernel-friendly
in place of byte-position string primitives). -/
def endsWithJS (s suffix : String) : Bool :=
  suffix.data.isSuffixOf s.data

/-- Index selection of `fetchGFSviaOpenMeteo`: the first hourly timestamp
ending in `T12:00`, else the index at half the series length. -/
def noonOrMidIdx (time : List String) : Nat :=
  match time.findIdx? (fun t => endsWithJS t "T12:00") with
  | some i => i
  | none => time.length / 2

/-- Pure core of `fetchGFSviaOpenMeteo`, applied to the upstream response:
`ok` is `res.ok`, and each hourly series is the corresponding array
(`?? []` turns a missing variable into the empty list; elements may be
JSON `null`).  `precipMm` is the day sum with `null` items counted as 0 —
a plain number, so the `?? null` on it never fires. -/
def fetchGFSviaOpenMeteo (ok : Bool) (time : List String)
    (t2m ws10 cc pr : List (Option ℚ)) (prp : Option (List (Option ℚ))) :
    Except String Forecast :=
  if !ok then .error "Open-Meteo forecast failed"
  else
    let idx := noonOrMidIdx time
    let precipDaySum : ℚ := (pr.map (fun x => x.getD 0)).sum
    let precipProbAvg : Option ℚ :=
      match prp with
      | some l =>
        if l.length ≠ 0 then
          some ((jsRound ((l.map (fun x => x.getD 0)).sum / l.length) : ℚ))
        else none
      | none => none
    let cloudAvg : Option ℚ :=
      if cc.length ≠ 0 then
        some ((jsRound ((cc.map (fun x => x.getD 0)).sum / cc.length) : ℚ))
      else none
    .ok { tempC := t2m.getD idx none, windSpeed := ws10.getD idx none,
          cloud := cloudAvg, precipMm := some precipDaySum, precipProb := precipProbAvg }

/-- The per-year lookback window `year - 1 - i` for `i < yearsBack`. -/
def yearsList (year : Int) (yearsBack : Nat) : List Int :=
  (List.range yearsBack).map (fun i => year - 1 - i)

/-- Aggregation shared verbatim by `fetchHistoricalERA5ForDay` and
`fetchHistoricalPOWERForDay` after `Promise.allSettled`: `results` holds one
entry per requested year, `none` for a rejected fetch.  Rain threshold is
1 mm with a `null` precipitation read as 0; the means also read `null`
values as 0 while still counting the year in the denominator. -/
def historicalAggregate (results : List (Option YearVal)) : Hist :=
  let values := results.filterMap id
  let rainOccurrences := (values.filter (fun v => 1 ≤ v.p.getD 0)).length
  let histProb : Option ℚ :=
    if values.length ≠ 0 then
      some ((jsRound (((rainOccurrences : ℚ) / values.length) * 100) : ℚ))
    else none
  let meanTemp : Option ℚ :=
    if values.length ≠ 0 then
      some (((jsRound (((values.map (fun v => v.t.getD 0)).sum / values.length) * 10) : ℚ)) / 10)
    else none
  let meanWind : Option ℚ :=
    if values.length ≠ 0 then
      some (((jsRound (((values.map (fun v => v.w.getD 0)).sum / values.length) * 10) : ℚ)) / 10)
    else none
  ⟨histProb, meanTemp, meanWind⟩

/-- Caseless substring test (JS `/word/i.test(s)` for a literal word). -/
def containsCIAux (w : List Char) : Nat → List Char → Bool
  | 0, _ => false
  | fuel + 1, l =>
    headCaseless w l ||
      (match l with
       | [] => false
       | _ :: cs => containsCIAux w fuel cs)

/-- Caseless substring containment. -/
def containsCI (s w : String) : Bool :=
  containsCIAux w.data (s.data.length + 1) s.data

/-- The activity adjustment guard
`activity && /vacances|extérieur|rando|plage/i.test(activity)`.  Note the
source's test, unlike its other activity lists, has no unaccented
`exterieur` alternative. -/
def jsOutdoorTest : Option String → Bool
  | none => false
  | some a =>
    a ≠ "" && (containsCI a "vacances" || containsCI a "extérieur" ||
      containsCI a "rando" || containsCI a "plage")

/-- Rain-risk resolution of the handler (lines computing `rainRisk` before
the activity adjustment). -/
noncomputable def rainRiskBase (forecast : Option Forecast) (hist : Option Hist) : ℚ :=
  match forecast.bind (fun f => f.precipProb) with
  | some fProb =>
    ((jsRound ((0.7 : ℚ) * fProb + (0.3 : ℚ) * ((hist.bind (fun h => h.histProb)).getD fProb)) : ℚ))
  | none =>
    match forecast.bind (fun f => f.precipMm) with
    | some mm =>
      let fProb : ℚ := ((riskFromPrecipMm (some mm) : ℤ) : ℚ)
      ((jsRound ((0.7 : ℚ) * fProb + (0.3 : ℚ) * ((hist.bind (fun h => h.histProb)).getD fProb)) : ℚ))
    | none =>
      match hist.bind (fun h => h.histProb) with
      | some hProb => hProb
      | none => 50

/-- Rain risk after the activity adjustment
(`min(100, round(rainRisk * 1.15))` when the outdoor test fires; the
`rainRisk ?? 50` inside it never sees a null since every branch above
assigned a number). -/
noncomputable def rainRiskFinal (forecast : Option Forecast) (hist : Option Hist)
    (activity : Option String) : ℚ :=
  let rainRisk := rainRiskBase forecast hist
  if jsOutdoorTest activity then min 100 ((jsRound (rainRisk * (1.15 : ℚ)) : ℚ))
  else rainRisk

/-- The handler's externally visible outcome: the success payload
`{rainRisk, wind, temp, source, date}`, the strict-mode 422 with its
`details`, the missing-coordinates 400, or the outer catch-all 500 carrying
the thrown message. -/
inductive ApiResult where
  | success (rainRisk : ℚ) (wind : String) (temp : Option ℚ) (source : String) (date : String)
  | error422 (locationPresent dateISOPresent : Bool) (activity : Option String)
  | error400 (msg : String)
  | error500 (msg : String)
deriving DecidableEq, Repr

/-- Combination and response shaping (handler part 4 and part 5). -/
noncomputable def combineResponse (forecast : Option Forecast) (hist : Option Hist)
    (activity : Option String) (isFuture within16d : Bool) (dateISO : String) : ApiResult :=
  let tempC : Option ℚ :=
    jsNullish (forecast.bind (fun f => f.tempC)) (hist.bind (fun h => h.meanTemp))
  let windSpeed : Option ℚ :=
    jsNullish (forecast.bind (fun f => f.windSpeed)) (hist.bind (fun h => h.meanWind))
  let rainRisk := rainRiskFinal forecast hist activity
  let wind := labelWind windSpeed
  .success rainRisk wind (tempC.map (fun t => ((jsRound (t * 10) : ℚ)) / 10))
    (if isFuture && within16d then "GFS+ERA5" else "ERA5") dateISO

/-! ## The request handler

External calls are oracle fields of `Env`; the trace records, in order, the
AI-parser call, the heuristic-parser invocation, each geocoding lookup, and
each weather fetch. -/

/-- External observable events of one request. -/
inductive Eff where
  | aiCall (q : String)
  | heuristic (q : String)
  | geocode (s : String)
  | forecastFetch (lat lon : ℚ) (dateISO : String)
  | histFetch (lat lon : ℚ) (dateISO : String)
deriving DecidableEq, Repr

/-- Environment of one request: outcomes of the external calls, the
configuration flags, and the clock.  `ai q` is the outcome of
`parseWithOpenRouter(q)` (`Except.error` models a thrown failure, which the
call site catches into an empty intent; the function's internal fallbacks
already yield `Except.ok` partial intents).  `jsParse` is `new
Date(string).getTime()` (`none` = Invalid Date), implementation-defined for
non-ISO strings.  `nowMs`/`today` are the clock in epoch milliseconds and
as a UTC civil date. -/
structure Env where
  ai : String → Except Unit ParsedIntent
  strict : Bool
  geocode : String → Except String Coord
  jsParse : String → Option Int
  forecast : ℚ → ℚ → String → Except String Forecast
  hist : ℚ → ℚ → String → Except String Hist
  nowMs : Int
  today : Civil

/-- The request body `{query?, lat?, lon?, date?, activity?}`. -/
structure Body where
  query : Option String
  lat : Option ℚ
  lon : Option ℚ
  date : Option String
  activity : Option String
deriving DecidableEq, Repr

/-- Intent resolution (handler part 1): AI parse with caught failure,
strict-mode gate, heuristic fallback filling only gaps.  Returns the
resolved `(location, date, activity)` or the early 422 response. -/
def stage1 (env : Env) (b : Body) :
    Except ApiResult (Option String × Option String × Option String) × List Eff :=
  match b.query with
  | some q =>
    if jsTrim q.data ≠ [] then
      let parsed := ((env.ai q).toOption).getD ⟨none, none, none⟩
      let location := parsed.location
      let activity := jsNullish parsed.activity b.activity
      let date := jsNullish parsed.dateISO b.date
      if env.strict && (!strTruthy location || !strTruthy date) then
        (.error (.error422 (strTruthy location) (strTruthy date) activity), [.aiCall q])
      else if !strTruthy location || !strTruthy date then
        let fb := parseFrenchFallback q env.today
        (.ok (orStr location fb.location, orStr date fb.dateISO, orStr activity fb.activity),
          [.aiCall q, .heuristic q])
      else (.ok (location, date, activity), [.aiCall q])
    else (.ok (none, b.date, b.activity), [])
  | none => (.ok (none, b.date, b.activity), [])

/-- Date defaulting (handler part: `if (!date) { +7 days }`). -/
def defaultedDate (env : Env) (date : Option String) : String :=
  match date with
  | some d => if d ≠ "" then d else toISODate (env.nowMs + 7 * 24 * 60 * 60 * 1000)
  | none => toISODate (env.nowMs + 7 * 24 * 60 * 60 * 1000)

/-- Coordinate resolution (handler lines before the 400 check).  The first
attempt (geocoding the resolved location) is NOT wrapped in try/catch: its
failure is the `Except.error` and aborts the chain.  The candidate and
cleaned-query attempts each swallow their failure; a cleaned-query success
overwrites a candidate success because the cleaned attempt does not
re-check that coordinates are still missing. -/
def resolveCoords (env : Env) (lat lon : Option ℚ) (location : Option String)
    (query : Option String) : Except String (Option ℚ × Option ℚ) × List Eff :=
  let attempt1 : Except String (Option ℚ × Option ℚ) × List Eff :=
    match location with
    | some loc =>
      if (lat.isNone || lon.isNone) && loc ≠ "" then
        match env.geocode loc with
        | .ok pt => (.ok (some pt.lat, some pt.lon), [.geocode loc])
        | .error m => (.error m, [.geocode loc])
      else (.ok (lat, lon), [])
    | none => (.ok (lat, lon), [])
  match attempt1 with
  | (.error m, tr) => (.error m, tr)
  | (.ok (lat1, lon1), tr1) =>
    match query with
    | some q =>
      if (lat1.isNone || lon1.isNone) && q ≠ "" then
        let c1 : Option ℚ × Option ℚ × List Eff :=
          match extractCandidateLocation q with
          | some cand =>
            if cand ≠ "" then
              match env.geocode cand with
              | .ok pt => (some pt.lat, some pt.lon, [.geocode cand])
              | .error _ => (lat1, lon1, [.geocode cand])
            else (lat1, lon1, [])
          | none => (lat1, lon1, [])
        let lat2 := c1.1
        let lon2 := c1.2.1
        let tr2 := c1.2.2
        let cleaned := cleanQuery q
        let c2 : Option ℚ × Option ℚ × List Eff :=
          if cleaned ≠ "" then
            match env.geocode cleaned with
            | .ok pt => (some pt.lat, some pt.lon, [.geocode cleaned])
            | .error _ => (lat2, lon2, [.geocode cleaned])
          else (lat2, lon2, [])
        (.ok (c2.1, c2.2.1), tr1 ++ tr2 ++ c2.2.2)
      else (.ok (lat1, lon1), tr1)
    | none => (.ok (lat1, lon1), tr1)

/-- Source dispatch (handler part 3): near-future requests fetch both
sources with independent failure (`allSettled`, failures become `none`);
otherwise only the historical source is awaited and its failure
propagates. -/
def sourceDispatch (env : Env) (lat lon : ℚ) (dateISO : String)
    (isFuture within16d : Bool) : Except String (Option Forecast × Option Hist) × List Eff :=
  if isFuture && within16d then
    (.ok ((env.forecast lat lon dateISO).toOption, (env.hist lat lon dateISO).toOption),
      [.forecastFetch lat lon dateISO, .histFetch lat lon dateISO])
  else
    match env.hist lat lon dateISO with
    | .error m => (.error m, [.histFetch lat lon dateISO])
    | .ok h => (.ok (none, some h), [.histFetch lat lon dateISO])

/-- The embedded `POST` handler.  The `Date.now()` of the date default and
the `new Date()` of the horizon computation are the same `env.nowMs` (one
request, one clock reading).  An invalid target date throws at
`toISODate(target)` (the JS `RangeError` message is `Invalid time value`)
before `daysAhead` is computed; every thrown error surfaces as the
catch-all 500 with the thrown message. -/
noncomputable def POST (env : Env) (b : Body) : ApiResult × List Eff :=
  match stage1 env b with
  | (.error r, tr) => (r, tr)
  | (.ok (location, date0, activity), tr1) =>
    let date := defaultedDate env date0
    match resolveCoords env b.lat b.lon location b.query with
    | (.error m, tr2) => (.error500 m, tr1 ++ tr2)
    | (.ok (latR, lonR), tr2) =>
      match latR, lonR with
      | some la, some lo =>
        match env.jsParse date with
        | none => (.error500 "Invalid time value", tr1 ++ tr2)
        | some t =>
          let dateISO := toISODate t
          let daysAhead := Int.fdiv (t - env.nowMs) 86400000
          let isFuture := env.nowMs < t
          let within16d := daysAhead ≤ 16
          match sourceDispatch env la lo dateISO isFuture within16d with
          | (.error m, tr3) => (.error500 m, tr1 ++ tr2 ++ tr3)
          | (.ok (forecast, hist), tr3) =>
            (combineResponse forecast hist activity isFuture within16d dateISO,
              tr1 ++ tr2 ++ tr3)
      | _, _ => (.error400 "Missing coordinates or resolvable location", tr1 ++ tr2)

/-- The `source` field of a successful response. -/
def ApiResult.sourceOf : ApiResult → Option String
  | .success _ _ _ s _ => some s
  | _ => none

/-! ## Spec-side definitions for the aggregation claim

`specRainRisk` is the rain-risk formula as the specification words it,
parametrized by the outdoor-vocabulary test and by the precipitation-to-
probability conversion, so that the claimed and the amended readings are
instances of one template (claims are compared against the embedded code
by refinement). -/

/-- Rain-risk formula written from the spec's words: blend 0.7/0.3 with the
historical probability (falling back to the forecast-side value), else the
converted precipitation sum, else the historical probability, else 50, then
the outdoor inflation `min(100, round(risk*1.15))`. -/
noncomputable def specRainRisk (outdoor : Option String → Bool) (pOfMm : ℚ → ℚ)
    (forecast : Option Forecast) (hist : Option Hist) (activity : Option String) : ℚ :=
  let base : ℚ :=
    match forecast.bind (fun f => f.precipProb) with
    | some fProb =>
      ((jsRound ((0.7 : ℚ) * fProb + (0.3 : ℚ) * ((hist.bind (fun h => h.histProb)).getD fProb)) : ℚ))
    | none =>
      match forecast.bind (fun f => f.precipMm) with
      | some mm =>
        let p := pOfMm mm
        ((jsRound ((0.7 : ℚ) * p + (0.3 : ℚ) * ((hist.bind (fun h => h.histProb)).getD p)) : ℚ))
      | none =>
        match hist.bind (fun h => h.histProb) with
        | some hProb => hProb
        | none => 50
  if outdoor activity then min 100 ((jsRound (base * (1.15 : ℚ)) : ℚ)) else base

/-- The claim's outdoor vocabulary, which lists the unaccented `exterieur`
alongside `extérieur`. -/
def c1ClaimOutdoor : Option String → Bool
  | none => false
  | some a =>
    a ≠ "" && (["vacances", "extérieur", "exterieur", "rando", "plage"].any
      (fun w => containsCI a w))

/-- The claim's conversion of a precipitation sum:
`round(100 / (1 + e^{-(mm - 3)}))` clamped to `[0, 100]` (the claim's text
has no inner `max(0, mm)`). -/
noncomputable def c1ClaimLogistic (mm : ℚ) : ℚ :=
  ((min 100 (max 0 (round ((100 : ℝ) / (1 + Real.exp ((3 : ℝ) - (mm : ℚ)))))) : ℤ) : ℚ)

/-- The amended outdoor vocabulary: only the accented `extérieur` (with
`vacances`, `rando`, `plage`), matched caselessly as a substring. -/
def c1AmendedOutdoor : Option String → Bool
  | none => false
  | some a =>
    a ≠ "" && (["vacances", "extérieur", "rando", "plage"].any
      (fun w => containsCI a w))

/-- The amended conversion: `round(100 / (1 + e^{-(max(0, mm) - 3)}))`
clamped to `[0, 100]`. -/
noncomputable def c1AmendedLogistic (mm : ℚ) : ℚ :=
  ((min 100 (max 0 (round ((100 : ℝ) / (1 + Real.exp ((3 : ℝ) - (max 0 mm : ℚ)))))) : ℤ) : ℚ)

/-- A concrete oracle environment for closed instances of the theorems
below: every external call fails, the clock is at the epoch, strict mode is
off.  Witness statements adjust individual fields. -/
def failEnv : Env :=
  { ai := fun _ => .error (), strict := false,
    geocode := fun _ => .error "Geocoding failed",
    jsParse := fun _ => none,
    forecast := fun _ _ _ => .error "Open-Meteo forecast failed",
    hist := fun _ _ _ => .error "POWER fetch failed (500)",
    nowMs := 0, today := ⟨2025, 1, 1⟩ }

/-! # Theorems -/

/-- `jsRound` is Mathlib's `round`. -/
theorem jsRound_eq_round (q : ℚ) : jsRound q = round q := by
  rw [round_eq, jsRound, Rat.floor_def', Rat.floor_def]

/-- `jsRound` is monotone. -/
theorem jsRound_mono {a b : ℚ} (h : a ≤ b) : jsRound a ≤ jsRound b := by
  rw [jsRound_eq_round, jsRound_eq_round, round_eq, round_eq]
  exact Int.floor_le_floor (by linarith)

/-- `jsRound` of a value in `[0, 100]` lies in `[0, 100]`. -/
theorem jsRound_bounds {q : ℚ} (h0 : 0 ≤ q) (h1 : q ≤ 100) :
    0 ≤ jsRound q ∧ jsRound q ≤ 100 := by
  constructor
  · have := jsRound_mono h0
    rwa [show jsRound 0 = 0 by rw [jsRound_eq_round]; exact round_zero] at this
  · have := jsRound_mono h1
    rwa [show jsRound 100 = 100 by
      rw [jsRound_eq_round, show ((100 : ℚ)) = ((100 : ℤ) : ℚ) by norm_num, round_intCast]] at this

/-- A day within the month survives `Date.UTC` normalization unchanged. -/
theorem normCivil_valid (y : Int) (m d : Nat) (h1 : 1 ≤ d) (h2 : d ≤ daysInMonth y m) :
    normCivil y m d = ⟨y, m, d⟩ := by
  have hd0 : ¬ d = 0 := by omega
  have hlt : ¬ daysInMonth y m < d := by omega
  show normCivilAux 8 y m d = _
  rw [normCivilAux]
  simp [hd0, hlt]

/-- Counterexample for C7: the input "le 5 mars 0000" gives an explicit
four-digit year, yet with today 2025-06-01 the result is 2026-03-05 — the
parsed year 0 is falsy in `!yearGiven`, so the current year is substituted
AND the rollover applies, where the claim requires no rollover (and a
no-rollover result would be 0000-03-05 or at most 2025-03-05). -/
theorem c7_fallback_date_counterexample :
    (parseFrenchFallback "le 5 mars 0000" ⟨2025, 6, 1⟩).dateISO = some "2026-03-05" ∧
    some "2026-03-05" ≠ some "0000-03-05" ∧
    some "2026-03-05" ≠ some "2025-03-05" := by
  refine ⟨by decide, by decide, by decide⟩

/-- C7 (amended): for a heuristic-parser date match "le day month [year]"
(modelled on the regex captures, with the day valid in the relevant years),
when no year is given the current year is assumed and the date rolls
forward exactly one year iff it lies strictly before today; an explicitly
given year is used as is with no rollover only when above 1900; a given
four-digit year of at most 1900 is replaced by the current year (still no
rollover when nonzero), and the year 0000 is falsy and behaves exactly as
an absent year, rollover included; the claim's concrete examples hold on
the full string parser. -/
theorem c7_fallback_date_rollover
    (day : Nat) (mon : String) (today : Civil) (m : Nat)
    (hm : frenchMonths.lookup mon = some m)
    (hd1 : 1 ≤ day)
    (hdThis : day ≤ daysInMonth today.y m)
    (hdNext : day ≤ daysInMonth (today.y + 1) m) :
    (parseFrenchDateParts day mon none today =
      some (renderCivil
        (if civilLtB ⟨today.y, m, day⟩ today then ⟨today.y + 1, m, day⟩
         else ⟨today.y, m, day⟩))) ∧
    (∀ yr : Nat, 1900 < yr → day ≤ daysInMonth (yr : Int) m →
      parseFrenchDateParts day mon (some yr) today =
        some (renderCivil ⟨(yr : Int), m, day⟩)) ∧
    (∀ yr : Nat, 0 < yr → yr ≤ 1900 →
      parseFrenchDateParts day mon (some yr) today =
        some (renderCivil ⟨today.y, m, day⟩)) ∧
    (parseFrenchDateParts day mon (some 0) today = parseFrenchDateParts day mon none today) ∧
    (parseFrenchFallback "le 5 mars" ⟨2025, 1, 1⟩).dateISO = some "2025-03-05" ∧
    (parseFrenchFallback "le 5 mars" ⟨2025, 6, 1⟩).dateISO = some "2026-03-05" ∧
    (parseFrenchFallback "le 5 mars 2020" today).dateISO = some "2020-03-05" := by
  have key : ∀ yr : Nat, 1900 < yr → day ≤ daysInMonth (yr : Int) m →
      parseFrenchDateParts day mon (some yr) today =
        some (renderCivil ⟨(yr : Int), m, day⟩) := by
    intro yr hyr hdYr
    simp only [parseFrenchDateParts, hm]
    have h0 : ¬ yr = 0 := by omega
    rw [if_pos hyr, normCivil_valid (yr : Int) m day hd1 hdYr]
    simp [h0]
  refine ⟨?_, key, ?_, ?_, by decide, by decide, ?_⟩
  · simp only [parseFrenchDateParts, hm]
    rw [normCivil_valid today.y m day hd1 hdThis]
    by_cases hlt : civilLtB ⟨today.y, m, day⟩ today
    · have hlt' : civilLtB ⟨today.y, m, day⟩ ⟨today.y, today.m, today.d⟩ = true := hlt
      simp only [hlt', Bool.true_and, if_true, hlt]
      rw [normCivil_valid (today.y + 1) m day hd1 hdNext]
    · have hlt' : civilLtB ⟨today.y, m, day⟩ ⟨today.y, today.m, today.d⟩ = false := by
        simpa using hlt
      simp only [hlt', Bool.true_and, if_false]
      simp [hlt]
  · intro yr hyr0 hyr1
    simp only [parseFrenchDateParts, hm]
    have hngt : ¬ (1900 < yr) := by omega
    have h0 : ¬ yr = 0 := by omega
    rw [if_neg hngt, normCivil_valid today.y m day hd1 hdThis]
    simp [h0]
  · simp only [parseFrenchDateParts, hm]
    norm_num
  · have step : (parseFrenchFallback "le 5 mars 2020" today).dateISO =
        parseFrenchDateParts 5 "mars" (some 2020) today := rfl
    have hm5 : frenchMonths.lookup "mars" = some 3 := rfl
    have h5 : parseFrenchDateParts 5 "mars" (some 2020) today =
        some (renderCivil ⟨(2020 : Int), 3, 5⟩) := by
      simp only [parseFrenchDateParts, hm5]
      rw [if_pos (by norm_num : (1900 : Nat) < 2020),
        normCivil_valid ((2020 : Nat) : Int) 3 5 (by decide) (by decide)]
      norm_num
    rw [step, h5]
    rfl

/-- Witness for C7 at day 5, month "mars", today 2025-01-01. -/
theorem c7_fallback_date_rollover_witness :
    parseFrenchDateParts 5 "mars" none ⟨2025, 1, 1⟩ =
      some (renderCivil
        (if civilLtB ⟨(2025 : Int), 3, 5⟩ ⟨2025, 1, 1⟩ then ⟨(2025 : Int) + 1, 3, 5⟩
         else ⟨(2025 : Int), 3, 5⟩)) :=
  (c7_fallback_date_rollover 5 "mars" ⟨2025, 1, 1⟩ 3 (by decide) (by decide) (by decide)
    (by decide)).1

/-- Summing the unwrapped values equals summing with a default when every
value is present. -/
theorem filterMap_sum_of_forall_some {α : Type} (f : α → Option ℚ) :
    ∀ l : List α, (∀ v ∈ l, f v ≠ none) →
      (l.filterMap f).sum = (l.map (fun v => (f v).getD 0)).sum := by
  intro l
  induction l with
  | nil => simp
  | cons a as ih =>
    intro h
    cases hfa : f a with
    | none => exact absurd hfa (h a (List.mem_cons_self a as))
    | some x =>
      have ht : (∀ v ∈ as, f v ≠ none) := fun v hv => h v (List.mem_cons_of_mem a hv)
      simp [List.filterMap_cons, hfa, ih ht]

/-- C3: the historical aggregate is a function of the fulfilled years only;
`rainProbabilityPct = round(100 * occurrences / successfulYears)` where a
year counts iff its precipitation value is present and at least 1 mm; the
means are the one-decimal-rounded arithmetic means of the fulfilled years'
values (stated for responses whose temperature and wind values are all
present); and zero fulfilled years yield `null` for all three outputs,
never 0. -/
theorem c3_historical_aggregate (results : List (Option YearVal)) :
    (historicalAggregate results = historicalAggregate ((results.filterMap id).map some)) ∧
    ((results.filterMap id).length ≠ 0 →
      (historicalAggregate results).histProb =
        some ((jsRound ((100 : ℚ) *
          ((results.filterMap id).countP
            (fun v => match v.p with | some p => decide (1 ≤ p) | none => false)) /
          (results.filterMap id).length) : ℚ))) ∧
    ((∀ v ∈ results.filterMap id, v.t ≠ none ∧ v.w ≠ none) →
      (results.filterMap id).length ≠ 0 →
      (historicalAggregate results).meanTemp =
        some (((jsRound ((((results.filterMap id).filterMap (fun v => v.t)).sum /
          (results.filterMap id).length) * 10) : ℚ)) / 10) ∧
      (historicalAggregate results).meanWind =
        some (((jsRound ((((results.filterMap id).filterMap (fun v => v.w)).sum /
          (results.filterMap id).length) * 10) : ℚ)) / 10)) ∧
    ((results.filterMap id).length = 0 →
      (historicalAggregate results).histProb = none ∧
      (historicalAggregate results).meanTemp = none ∧
      (historicalAggregate results).meanWind = none) := by
  refine ⟨?_, ?_, ?_, ?_⟩
  · simp only [historicalAggregate]
    rw [show ((results.filterMap id).map some).filterMap id = results.filterMap id by
      rw [List.filterMap_map]; exact List.filterMap_some _]
  · intro hne
    simp only [historicalAggregate]
    rw [if_pos hne]
    have hcount : (results.filterMap id).countP
        (fun v => match v.p with | some p => decide (1 ≤ p) | none => false) =
        ((results.filterMap id).filter (fun v => 1 ≤ v.p.getD 0)).length := by
      rw [List.countP_eq_length_filter]
      congr 1
      apply List.filter_congr
      intro v _
      cases hv : v.p with
      | none => simp [hv]
      | some p => simp [hv]
    rw [hcount]
    refine congrArg some (congrArg (fun q => ((jsRound q : ℤ) : ℚ)) ?_)
    ring
  · intro hall hne
    have hts := filterMap_sum_of_forall_some (fun v => v.t) (results.filterMap id)
      (fun v hv => (hall v hv).1)
    have hws := filterMap_sum_of_forall_some (fun v => v.w) (results.filterMap id)
      (fun v hv => (hall v hv).2)
    constructor
    · simp only [historicalAggregate]
      rw [if_pos hne, hts]
    · simp only [historicalAggregate]
      rw [if_pos hne, hws]
  · intro h0
    simp [historicalAggregate, h0]

/-- Witness for C3 on two fulfilled years (one with a null precipitation)
and one rejected year. -/
theorem c3_historical_aggregate_witness :
    (historicalAggregate
      [some ⟨some 5, some 20, some 3⟩, none, some ⟨none, some 10, some 7⟩]).histProb =
        some 50 ∧
    (historicalAggregate
      [some ⟨some 5, some 20, some 3⟩, none, some ⟨none, some 10, some 7⟩]).meanTemp =
        some 15 ∧
    (historicalAggregate
      [some ⟨some 5, some 20, some 3⟩, none, some ⟨none, some 10, some 7⟩]).meanWind =
        some 5 := by
  have h := c3_historical_aggregate
    [some ⟨some 5, some 20, some 3⟩, none, some ⟨none, some 10, some 7⟩]
  have hp := h.2.1 (by decide)
  have hm := h.2.2.1 (by decide) (by decide)
  have elen : (List.filterMap id
      [some (⟨some 5, some 20, some 3⟩ : YearVal), none,
        some ⟨none, some 10, some 7⟩]).length = 2 := rfl
  have ecount : (List.filterMap id
      [some (⟨some 5, some 20, some 3⟩ : YearVal), none,
        some ⟨none, some 10, some 7⟩]).countP
      (fun v => match v.p with | some p => decide (1 ≤ p) | none => false) = 1 := rfl
  have et : List.filterMap (fun v => v.t) (List.filterMap id
      [some (⟨some 5, some 20, some 3⟩ : YearVal), none,
        some ⟨none, some 10, some 7⟩]) = [20, 10] := rfl
  have ew : List.filterMap (fun v => v.w) (List.filterMap id
      [some (⟨some 5, some 20, some 3⟩ : YearVal), none,
        some ⟨none, some 10, some 7⟩]) = [3, 7] := rfl
  refine ⟨?_, ?_, ?_⟩
  · rw [hp, ecount, elen]
    norm_num [jsRound_eq_round, round_eq]
  · rw [hm.1, et, elen]
    norm_num [jsRound_eq_round, round_eq, List.sum_cons, List.sum_nil]
  · rw [hm.2, ew, elen]
    norm_num [jsRound_eq_round, round_eq, List.sum_cons, List.sum_nil]

/-- Counterexample for C6: on a successful upstream response whose hourly
`precipitation` variable is missing (empty series), the sample's `precipMm`
is the number 0, not a null field as the claim requires for every missing
variable. -/
theorem c6_counterexample :
    fetchGFSviaOpenMeteo true [] [] [] [] [] none =
      .ok ⟨none, none, none, some 0, none⟩ ∧ some (0 : ℚ) ≠ (none : Option ℚ) :=
  ⟨rfl, by decide⟩

/-- C6 (amended): a non-success status fails with the thrown message; the
12:00 UTC record (else the half-length index) supplies temperature and
wind; cloud cover and precipitation probability are rounded day-means,
null when their series is missing or empty; a missing temperature or wind
series yields null; but `precipMm` is always the day-sum of the present
values, in particular 0 (not null) when the precipitation series is
missing. -/
theorem c6_forecast_sample (ok : Bool) (time : List String)
    (t2m ws10 cc pr : List (Option ℚ)) (prp : Option (List (Option ℚ))) :
    (ok = false →
      fetchGFSviaOpenMeteo ok time t2m ws10 cc pr prp =
        .error "Open-Meteo forecast failed") ∧
    (∀ i, time.findIdx? (fun t => endsWithJS t "T12:00") = some i →
      noonOrMidIdx time = i) ∧
    (time.findIdx? (fun t => endsWithJS t "T12:00") = none →
      noonOrMidIdx time = time.length / 2) ∧
    (ok = true → ∃ f, fetchGFSviaOpenMeteo ok time t2m ws10 cc pr prp = .ok f ∧
      f.tempC = t2m.getD (noonOrMidIdx time) none ∧
      f.windSpeed = ws10.getD (noonOrMidIdx time) none ∧
      (t2m = [] → f.tempC = none) ∧
      (ws10 = [] → f.windSpeed = none) ∧
      (cc ≠ [] →
        f.cloud = some ((jsRound ((cc.map (fun x => x.getD 0)).sum / cc.length) : ℚ))) ∧
      (cc = [] → f.cloud = none) ∧
      (∀ l, prp = some l → l ≠ [] →
        f.precipProb = some ((jsRound ((l.map (fun x => x.getD 0)).sum / l.length) : ℚ))) ∧
      (prp = none → f.precipProb = none) ∧
      (prp = some [] → f.precipProb = none) ∧
      f.precipMm = some ((pr.map (fun x => x.getD 0)).sum)) := by
  refine ⟨?_, ?_, ?_, ?_⟩
  · intro h
    subst h
    rfl
  · intro i h
    simp [noonOrMidIdx, h]
  · intro h
    simp [noonOrMidIdx, h]
  · intro h
    subst h
    refine ⟨_, rfl, rfl, rfl, ?_, ?_, ?_, ?_, ?_, ?_, ?_, rfl⟩
    · intro h2
      subst h2
      rfl
    · intro h2
      subst h2
      rfl
    · intro h2
      have : cc.length ≠ 0 := by simpa [List.length_eq_zero] using h2
      simp only [fetchGFSviaOpenMeteo]
      simp [this]
    · intro h2
      subst h2
      rfl
    · intro l hl h2
      subst hl
      have : l.length ≠ 0 := by simpa [List.length_eq_zero] using h2
      simp [fetchGFSviaOpenMeteo, this]
    · intro h2
      subst h2
      rfl
    · intro h2
      subst h2
      rfl

/-- Witness for C6 at a concrete successful response with a noon record. -/
theorem c6_forecast_sample_witness :
    fetchGFSviaOpenMeteo true ["2025-10-10T11:00", "2025-10-10T12:00"]
      [some 9, some 11] [some 2, some 4] [some 50, some 70] [some 1, none]
      (some [some 30, some 50]) =
      .ok ⟨some 11, some 4, some 60, some 1, some 40⟩ := by
  have h := (c6_forecast_sample true ["2025-10-10T11:00", "2025-10-10T12:00"]
    [some 9, some 11] [some 2, some 4] [some 50, some 70] [some 1, none]
    (some [some 30, some 50])).2.2.2 rfl
  obtain ⟨f, hf, ht, hw, _, _, hc, _, hpp, _, _, hpm⟩ := h
  rw [hf]
  have hidx : noonOrMidIdx ["2025-10-10T11:00", "2025-10-10T12:00"] = 1 := by decide
  have h60 : f.cloud = some 60 := by
    rw [hc (by decide)]
    norm_num [jsRound_eq_round, round_eq, List.sum_cons, List.sum_nil]
  have h40 : f.precipProb = some 40 := by
    rw [hpp [some 30, some 50] rfl (by decide)]
    norm_num [jsRound_eq_round, round_eq, List.sum_cons, List.sum_nil]
  have h1 : f.precipMm = some 1 := by
    rw [hpm]
    norm_num [List.sum_cons, List.sum_nil]
  have ht' : f.tempC = some 11 := by rw [ht, hidx]; rfl
  have hw' : f.windSpeed = some 4 := by rw [hw, hidx]; rfl
  cases f
  simp_all

/-- C4: with the handler's horizon booleans, a future date within the
16-day horizon consults both sources via `allSettled` (a failure of either
becomes `none` without failing the request) and the response's source field
is "GFS+ERA5"; otherwise only the historical source is consulted, its
failure propagates as the request error, and the source field is "ERA5";
the 16-day boundary is inclusive: `daysAhead = 16` qualifies and
`daysAhead = 17` does not. -/
theorem c4_source_dispatch (env : Env) (la lo : ℚ) (dISO : String) (nowMs t : Int)
    (iF w16 : Bool) :
    ((iF && w16) = true →
      sourceDispatch env la lo dISO iF w16 =
        (.ok ((env.forecast la lo dISO).toOption, (env.hist la lo dISO).toOption),
          [.forecastFetch la lo dISO, .histFetch la lo dISO])) ∧
    ((iF && w16) = false →
      (∀ m, env.hist la lo dISO = .error m →
        sourceDispatch env la lo dISO iF w16 = (.error m, [.histFetch la lo dISO])) ∧
      (∀ hv, env.hist la lo dISO = .ok hv →
        sourceDispatch env la lo dISO iF w16 = (.ok (none, some hv), [.histFetch la lo dISO]))) ∧
    (Int.fdiv (t - nowMs) 86400000 = 16 →
      decide (Int.fdiv (t - nowMs) 86400000 ≤ 16) = true) ∧
    (Int.fdiv (t - nowMs) 86400000 = 17 →
      decide (Int.fdiv (t - nowMs) 86400000 ≤ 16) = false) ∧
    (∀ f ho a d2, (combineResponse f ho a iF w16 d2).sourceOf =
      some (if iF && w16 then "GFS+ERA5" else "ERA5")) := by
  refine ⟨?_, ?_, ?_, ?_, ?_⟩
  · intro h
    simp [sourceDispatch, h]
  · intro h
    constructor
    · intro m hm
      simp [sourceDispatch, h, hm]
    · intro hv hh
      simp [sourceDispatch, h, hh]
  · intro h
    simp [h]
  · intro h
    simp [h]
  · intro f ho a d2
    simp only [combineResponse, ApiResult.sourceOf]

/-- Witness for C4: a near-future dispatch with a failing forecast source
and a succeeding historical source. -/
theorem c4_source_dispatch_witness :
    sourceDispatch { failEnv with hist := fun _ _ _ => .ok ⟨some 40, some 20, some 3⟩ }
        1 2 "2025-10-10" true true =
      (.ok (none, some ⟨some 40, some 20, some 3⟩),
        [.forecastFetch 1 2 "2025-10-10", .histFetch 1 2 "2025-10-10"]) := by
  have h := (c4_source_dispatch
    { failEnv with hist := fun _ _ _ => .ok ⟨some 40, some 20, some 3⟩ }
    1 2 "2025-10-10" 0 86400000 true true).1 rfl
  simpa [failEnv] using h

/-- The precipitation-sum conversion of the code equals the amended claim
formula (the two spell the exponent `-(x-3)` and `3-x` respectively). -/
theorem riskFromPrecipMm_eq_amended (mm : ℚ) :
    ((riskFromPrecipMm (some mm) : ℤ) : ℚ) = c1AmendedLogistic mm := by
  simp only [riskFromPrecipMm, c1AmendedLogistic]
  rw [neg_sub]

/-- The code's outdoor-activity test equals the amended vocabulary test. -/
theorem jsOutdoorTest_eq_amended (x : Option String) :
    jsOutdoorTest x = c1AmendedOutdoor x := by
  cases x with
  | none => rfl
  | some s =>
    simp [jsOutdoorTest, c1AmendedOutdoor, Bool.or_assoc]

/-- Counterexample for C1: with forecast precipitation probability 80,
historical rain probability 40 and activity "exterieur" (unaccented, as the
claim's vocabulary lists), the code returns 68 — the activity regex
`/vacances|extérieur|rando|plage/i` has no unaccented alternative — while
the claim's formula yields the inflated 78. -/
theorem c1_counterexample :
    rainRiskFinal (some ⟨none, none, none, none, some 80⟩)
        (some ⟨some 40, none, none⟩) (some "exterieur") = 68 ∧
    specRainRisk c1ClaimOutdoor c1ClaimLogistic (some ⟨none, none, none, none, some 80⟩)
        (some ⟨some 40, none, none⟩) (some "exterieur") = 78 ∧
    rainRiskFinal (some ⟨none, none, none, none, some 80⟩)
        (some ⟨some 40, none, none⟩) (some "exterieur") ≠
      specRainRisk c1ClaimOutdoor c1ClaimLogistic (some ⟨none, none, none, none, some 80⟩)
        (some ⟨some 40, none, none⟩) (some "exterieur") := by
  have h1 : rainRiskFinal (some ⟨none, none, none, none, some 80⟩)
      (some ⟨some 40, none, none⟩) (some "exterieur") = 68 := by
    have ho : jsOutdoorTest (some "exterieur") = false := by decide
    simp only [rainRiskFinal, rainRiskBase, ho, Option.bind, Option.getD, Bool.false_eq_true,
      if_false]
    norm_num [jsRound_eq_round, round_eq]
  have h2 : specRainRisk c1ClaimOutdoor c1ClaimLogistic (some ⟨none, none, none, none, some 80⟩)
      (some ⟨some 40, none, none⟩) (some "exterieur") = 78 := by
    have ho : c1ClaimOutdoor (some "exterieur") = true := by decide
    simp only [specRainRisk, ho, Option.bind, Option.getD, if_true]
    norm_num [jsRound_eq_round, round_eq, min_def]
  exact ⟨h1, h2, by rw [h1, h2]; norm_num⟩

/-- C1 (amended): the rain risk equals the claim's formula with the outdoor
vocabulary corrected to the accented `extérieur` only (plus `vacances`,
`rando`, `plage`) and with the precipitation conversion applied to
`max(0, precipMm)`; in particular forecast precipProb 80 with historical
rainProb 40 yields 68, and 78 with activity "vacances". -/
theorem c1_rain_risk_amended (f : Option Forecast) (h : Option Hist) (a : Option String) :
    rainRiskFinal f h a = specRainRisk c1AmendedOutdoor c1AmendedLogistic f h a ∧
    rainRiskFinal (some ⟨none, none, none, none, some 80⟩)
      (some ⟨some 40, none, none⟩) none = 68 ∧
    rainRiskFinal (some ⟨none, none, none, none, some 80⟩)
      (some ⟨some 40, none, none⟩) (some "vacances") = 78 := by
  refine ⟨?_, ?_, ?_⟩
  · cases hp : f.bind (fun x => x.precipProb) with
    | some fProb =>
      simp [rainRiskFinal, specRainRisk, rainRiskBase, jsOutdoorTest_eq_amended, hp]
    | none =>
      cases hmm : f.bind (fun x => x.precipMm) with
      | some mm =>
        simp [rainRiskFinal, specRainRisk, rainRiskBase, jsOutdoorTest_eq_amended, hp, hmm,
          riskFromPrecipMm_eq_amended]
      | none =>
        cases hh : h.bind (fun x => x.histProb) with
        | some hP =>
          simp [rainRiskFinal, specRainRisk, rainRiskBase, jsOutdoorTest_eq_amended, hp, hmm, hh]
        | none =>
          simp [rainRiskFinal, specRainRisk, rainRiskBase, jsOutdoorTest_eq_amended, hp, hmm, hh]
  · have ho : jsOutdoorTest none = false := rfl
    simp only [rainRiskFinal, rainRiskBase, ho, Option.bind, Option.getD, Bool.false_eq_true,
      if_false]
    norm_num [jsRound_eq_round, round_eq]
  · have ho : jsOutdoorTest (some "vacances") = true := by decide
    simp only [rainRiskFinal, rainRiskBase, ho, Option.bind, Option.getD, if_true]
    norm_num [jsRound_eq_round, round_eq, min_def]

/-- C5: with strict mode enabled, a non-empty query whose AI parse (with
its thrown failures caught to an empty intent) leaves location or date
non-truthy fails with the 422 response carrying which fields were obtained
and the merged activity; the trace contains only the AI call — the
heuristic fallback, geocoding and the weather fetches are never attempted. -/
theorem c5_strict_mode (env : Env) (b : Body) (q : String)
    (hq : b.query = some q) (hqa : jsTrim q.data ≠ [])
    (hstrict : env.strict = true)
    (hmiss : (!strTruthy ((env.ai q).toOption.getD ⟨none, none, none⟩).location ||
      !strTruthy (jsNullish ((env.ai q).toOption.getD ⟨none, none, none⟩).dateISO b.date)) =
        true) :
    POST env b =
      (.error422 (strTruthy ((env.ai q).toOption.getD ⟨none, none, none⟩).location)
        (strTruthy (jsNullish ((env.ai q).toOption.getD ⟨none, none, none⟩).dateISO b.date))
        (jsNullish ((env.ai q).toOption.getD ⟨none, none, none⟩).activity b.activity),
        [.aiCall q]) := by
  have hs : stage1 env b =
      (.error (.error422 (strTruthy ((env.ai q).toOption.getD ⟨none, none, none⟩).location)
        (strTruthy (jsNullish ((env.ai q).toOption.getD ⟨none, none, none⟩).dateISO b.date))
        (jsNullish ((env.ai q).toOption.getD ⟨none, none, none⟩).activity b.activity)),
        [.aiCall q]) := by
    simp only [stage1, hq]
    rw [if_pos hqa]
    simp only [hstrict, Bool.true_and, hmiss, if_true]
  simp only [POST, hs]

/-- Witness for C5: strict mode, failing AI call, query "hello". -/
theorem c5_strict_mode_witness :
    POST { failEnv with strict := true } ⟨some "hello", none, none, none, none⟩ =
      (.error422 false false none, [.aiCall "hello"]) := by
  have h := c5_strict_mode { failEnv with strict := true }
    ⟨some "hello", none, none, none, none⟩ "hello" rfl (by decide) rfl (by decide)
  simpa [failEnv, jsNullish, strTruthy] using h

/-- C10 (implicit): a request with no query, direct coordinates and a
directly supplied date string that generic date parsing cannot interpret
bypasses `normalizeDateISO` (only applied to AI parser output) and the
seven-days-from-now default, and fails only when the horizon computation
renders the invalid date as ISO: the response is the generic 500 with the
`toISOString` RangeError message "Invalid time value" — not a 400 or 422 —
and no external call is made. -/
theorem c10_invalid_direct_date (env : Env) (la lo : ℚ) (s : String) (act : Option String)
    (hs : s ≠ "") (hparse : env.jsParse s = none) :
    POST env ⟨none, some la, some lo, some s, act⟩ = (.error500 "Invalid time value", []) := by
  have hs1 : stage1 env ⟨none, some la, some lo, some s, act⟩ =
      (.ok (none, some s, act), []) := rfl
  have hd : defaultedDate env (some s) = s := by
    simp only [defaultedDate]
    rw [if_pos hs]
  have hr : resolveCoords env (some la) (some lo) none none = (.ok (some la, some lo), []) := rfl
  simp only [POST, hs1, hd, hr, hparse]
  rfl

/-- Witness for C10 with the claim's example date "10 octobre 2025". -/
theorem c10_invalid_direct_date_witness :
    POST failEnv ⟨none, some 1, some 2, some "10 octobre 2025", none⟩ =
      (.error500 "Invalid time value", []) :=
  c10_invalid_direct_date failEnv 1 2 "10 octobre 2025" none (by decide) rfl

/-- Counterexample for C2: the AI parser resolves location "Nice" and a
date, geocoding "Nice" throws, and the claim requires that failure to be
swallowed, the candidate and cleaned-query attempts tried, and (all of them
failing here) the 400 "missing coordinates" error returned — but the code
does not wrap the first geocode call in try/catch, so the request fails
with the propagated 500 "Geocoding failed" after a single geocoding call. -/
theorem c2_counterexample :
    POST { failEnv with ai := fun _ => .ok ⟨some "Nice", some "2025-10-10", none⟩ }
        ⟨some "Vacances", none, none, none, none⟩ =
      (.error500 "Geocoding failed", [.aiCall "Vacances", .geocode "Nice"]) ∧
    (.error500 "Geocoding failed" : ApiResult) ≠
      .error400 "Missing coordinates or resolvable location" := by
  constructor
  · rfl
  · decide

/-- C2 (amended): coordinate resolution per the code.  Already-supplied
coordinates skip geocoding entirely; when coordinates are missing and a
location was resolved, its geocoding failure PROPAGATES (aborting the
chain, a 500 at the handler boundary) while a success supplies the
coordinates; when no location was resolved and the query is non-empty, the
candidate and cleaned-query attempts each swallow their failures, a
cleaned-query success OVERWRITES a candidate success (the last success
wins, since the cleaned attempt does not re-check that coordinates are
missing), failures leave the coordinates unchanged; and a request with no
coordinates, no location and no query fails with the 400
"Missing coordinates or resolvable location" and an empty trace. -/
theorem c2_coordinate_chain (env : Env) (lat lon : Option ℚ) (loc q : String) :
    (∀ la lo, resolveCoords env (some la) (some lo) (some loc) (some q) =
      (.ok (some la, some lo), [])) ∧
    ((lat.isNone || lon.isNone) = true → loc ≠ "" → ∀ m, env.geocode loc = .error m →
      resolveCoords env lat lon (some loc) (some q) = (.error m, [.geocode loc])) ∧
    ((lat.isNone || lon.isNone) = true → loc ≠ "" → ∀ pt, env.geocode loc = .ok pt →
      resolveCoords env lat lon (some loc) (some q) =
        (.ok (some pt.lat, some pt.lon), [.geocode loc])) ∧
    ((lat.isNone || lon.isNone) = true → q ≠ "" →
      (∀ c pt pt2, extractCandidateLocation q = some c → c ≠ "" →
        env.geocode c = .ok pt → cleanQuery q ≠ "" → env.geocode (cleanQuery q) = .ok pt2 →
        resolveCoords env lat lon none (some q) =
          (.ok (some pt2.lat, some pt2.lon), [.geocode c, .geocode (cleanQuery q)])) ∧
      (∀ c pt m2, extractCandidateLocation q = some c → c ≠ "" →
        env.geocode c = .ok pt → cleanQuery q ≠ "" → env.geocode (cleanQuery q) = .error m2 →
        resolveCoords env lat lon none (some q) =
          (.ok (some pt.lat, some pt.lon), [.geocode c, .geocode (cleanQuery q)])) ∧
      (∀ c m1 m2, extractCandidateLocation q = some c → c ≠ "" →
        env.geocode c = .error m1 → cleanQuery q ≠ "" → env.geocode (cleanQuery q) = .error m2 →
        resolveCoords env lat lon none (some q) =
          (.ok (lat, lon), [.geocode c, .geocode (cleanQuery q)]))) ∧
    (∀ d act, POST env ⟨none, none, none, d, act⟩ =
      (.error400 "Missing coordinates or resolvable location", [])) := by
  refine ⟨?_, ?_, ?_, ?_, ?_⟩
  · intro la lo
    rfl
  · intro hmiss hloc m hm
    simp [resolveCoords, hmiss, hloc, hm]
  · intro hmiss hloc pt hpt
    simp [resolveCoords, hmiss, hloc, hpt]
  · intro hmiss hq
    refine ⟨?_, ?_, ?_⟩
    · intro c pt pt2 hc hcne hgc hcl hgcl
      simp [resolveCoords, hmiss, hq, hc, hcne, hgc, hcl, hgcl]
    · intro c pt m2 hc hcne hgc hcl hgcl
      simp [resolveCoords, hmiss, hq, hc, hcne, hgc, hcl, hgcl]
    · intro c m1 m2 hc hcne hgc hcl hgcl
      simp [resolveCoords, hmiss, hq, hc, hcne, hgc, hcl, hgcl]
  · intro d act
    have hs1 : stage1 env ⟨none, none, none, d, act⟩ = (.ok (none, d, act), []) := rfl
    simp only [POST, hs1]
    rfl

/-- Witness for C2: candidate geocoding succeeds at (1,1), then the
cleaned-query geocoding succeeds at (2,2) and overwrites it. -/
theorem c2_coordinate_chain_witness :
    resolveCoords
      { failEnv with geocode := fun s =>
          if s = "Nice" then .ok ⟨1, 1⟩
          else if s = "Nice 12345" then .ok ⟨2, 2⟩
          else .error "Lieu introuvable" }
      none none none (some "Nice 12345") =
      (.ok (some 2, some 2), [.geocode "Nice", .geocode "Nice 12345"]) := by
  have h := ((c2_coordinate_chain
    { failEnv with geocode := fun s =>
        if s = "Nice" then .ok ⟨1, 1⟩
        else if s = "Nice 12345" then .ok ⟨2, 2⟩
        else .error "Lieu introuvable" }
    none none "" "Nice 12345").2.2.2.1 rfl (by decide)).1
    "Nice" ⟨1, 1⟩ ⟨2, 2⟩ (by decide) (by decide) (by rfl) (by decide) (by rfl)
  simpa using h

/-- Counterexample for C8: the AI parser returns location and date but a
null activity, the query contains "plage" (which the heuristic parser
would extract), yet the heuristic parser is not invoked — the fallback
only runs when location or date is missing — so the activity stays absent
where the claim requires it filled. -/
theorem c8_counterexample :
    stage1 { failEnv with ai := fun _ => .ok ⟨some "Paris", some "2025-10-10", none⟩ }
        ⟨some "plage à Paris", none, none, none, none⟩ =
      (.ok (some "Paris", some "2025-10-10", none), [.aiCall "plage à Paris"]) ∧
    (parseFrenchFallback "plage à Paris" failEnv.today).activity = some "plage" ∧
    (none : Option String) ≠ some "plage" :=
  ⟨rfl, by decide, by decide⟩

/-- C8 (amended): with strict mode off and a non-empty query, a thrown AI
parser call is absorbed — the pipeline behaves exactly as if the parser had
returned an empty intent — and intent resolution never fails the request;
the heuristic parser is invoked iff location or dateISO is still absent
after the AI result (merged over the body's values — an absent activity
alone does NOT trigger it), and when invoked it fills exactly the absent
fields, never overwriting an AI-provided (or body-provided) value. -/
theorem c8_ai_fallback (env : Env) (b : Body) (q : String)
    (hq : b.query = some q) (hqa : jsTrim q.data ≠ []) (hstrict : env.strict = false) :
    (∀ u, env.ai q = .error u →
      stage1 env b = stage1 { env with ai := fun _ => .ok ⟨none, none, none⟩ } b) ∧
    (∀ r tr, stage1 env b ≠ (.error r, tr)) ∧
    (∀ p, env.ai q = .ok p →
      ((strTruthy p.location && strTruthy (jsNullish p.dateISO b.date)) = true →
        stage1 env b = (.ok (p.location, jsNullish p.dateISO b.date,
          jsNullish p.activity b.activity), [.aiCall q])) ∧
      ((strTruthy p.location && strTruthy (jsNullish p.dateISO b.date)) = false →
        stage1 env b = (.ok
          (orStr p.location (parseFrenchFallback q env.today).location,
           orStr (jsNullish p.dateISO b.date) (parseFrenchFallback q env.today).dateISO,
           orStr (jsNullish p.activity b.activity) (parseFrenchFallback q env.today).activity),
          [.aiCall q, .heuristic q]))) := by
  refine ⟨?_, ?_, ?_⟩
  · intro u hu
    simp only [stage1, hq, hu]
    rfl
  · intro r tr
    simp only [stage1, hq]
    rw [if_pos hqa]
    simp only [hstrict, Bool.false_and, Bool.false_eq_true, if_false]
    by_cases hmiss : (!strTruthy ((env.ai q).toOption.getD ⟨none, none, none⟩).location ||
        !strTruthy (jsNullish ((env.ai q).toOption.getD ⟨none, none, none⟩).dateISO b.date)) =
          true
    · simp [hmiss]
    · simp [hmiss]
  · intro p hp
    have hget : (env.ai q).toOption.getD ⟨none, none, none⟩ = p := by
      rw [hp]
      rfl
    constructor
    · intro hpres
      obtain ⟨h1, h2⟩ := Bool.and_eq_true_iff.mp hpres
      simp only [stage1, hq]
      rw [if_pos hqa]
      simp only [hstrict, Bool.false_and, Bool.false_eq_true, if_false, hget, h1, h2]
      simp
    · intro hmiss
      have hor : (!strTruthy p.location ||
          !strTruthy (jsNullish p.dateISO b.date)) = true := by
        cases ha : strTruthy p.location <;>
          cases hb : strTruthy (jsNullish p.dateISO b.date) <;>
            simp_all
      simp only [stage1, hq]
      rw [if_pos hqa]
      simp only [hstrict, Bool.false_and, Bool.false_eq_true, if_false, hget, hor, if_true]

/-- Witness for C8: a thrown AI call behaves as an empty intent, and with
an AI-provided location but no date the heuristic fills date and activity
gaps without overwriting the location. -/
theorem c8_ai_fallback_witness :
    stage1 failEnv ⟨some "plage", none, none, none, none⟩ =
      stage1 { failEnv with ai := fun _ => .ok ⟨none, none, none⟩ }
        ⟨some "plage", none, none, none, none⟩ ∧
    stage1 { failEnv with ai := fun _ => .ok ⟨some "Paris", none, none⟩ }
        ⟨some "vacances à Paris", none, none, none, none⟩ =
      (.ok (some "Paris", none, some "vacances"),
        [.aiCall "vacances à Paris", .heuristic "vacances à Paris"]) := by
  constructor
  · exact (c8_ai_fallback failEnv ⟨some "plage", none, none, none, none⟩ "plage" rfl
      (by decide) rfl).1 () rfl
  · have h := ((c8_ai_fallback { failEnv with ai := fun _ => .ok ⟨some "Paris", none, none⟩ }
      ⟨some "vacances à Paris", none, none, none, none⟩ "vacances à Paris" rfl (by decide)
      rfl).2.2 ⟨some "Paris", none, none⟩ rfl).2 (by decide)
    rw [h]
    rfl

/-- An `Except` whose `toOption` is `some` was `ok`. -/
theorem except_toOption_eq_some {ε α : Type} (e : Except ε α) (a : α)
    (h : e.toOption = some a) : e = .ok a := by
  cases e with
  | ok v =>
    simp [Except.toOption] at h
    rw [h]
  | error m => simp [Except.toOption] at h

/-- The aggregate's rain probability, when present, is an integer in
`[0, 100]`. -/
theorem historicalAggregate_histProb_bounds (outs : List (Option YearVal)) (p : ℚ)
    (h : (historicalAggregate outs).histProb = some p) :
    ∃ n : ℤ, p = (n : ℚ) ∧ 0 ≤ n ∧ n ≤ 100 := by
  simp only [historicalAggregate] at h
  by_cases hlen : (outs.filterMap id).length ≠ 0
  · rw [if_pos hlen] at h
    set vals := outs.filterMap id with hv
    set occ := (vals.filter (fun v => 1 ≤ v.p.getD 0)).length with ho
    have hocc : occ ≤ vals.length := by
      rw [ho]
      exact List.length_filter_le _ _
    have hlen0 : (0 : ℚ) < vals.length := by
      have : 0 < vals.length := Nat.pos_of_ne_zero hlen
      exact_mod_cast this
    have harg0 : (0 : ℚ) ≤ (occ : ℚ) / vals.length * 100 := by
      have h1 : (0 : ℚ) ≤ (occ : ℚ) / vals.length := by positivity
      linarith
    have harg1 : (occ : ℚ) / vals.length * 100 ≤ 100 := by
      have h1 : (occ : ℚ) / vals.length ≤ 1 := by
        rw [div_le_one hlen0]
        exact_mod_cast hocc
      linarith
    obtain ⟨hb0, hb1⟩ := jsRound_bounds harg0 harg1
    refine ⟨jsRound ((occ : ℚ) / vals.length * 100), ?_, hb0, hb1⟩
    injection h with h'
    rw [← h']
  · rw [if_neg hlen] at h
    exact absurd h (by simp)

/-- `riskFromPrecipMm` always lies in `[0, 100]`. -/
theorem riskFromPrecipMm_bounds (o : Option ℚ) :
    0 ≤ riskFromPrecipMm o ∧ riskFromPrecipMm o ≤ 100 := by
  cases o with
  | none => exact ⟨by norm_num [riskFromPrecipMm], by norm_num [riskFromPrecipMm]⟩
  | some mm =>
    refine ⟨?_, ?_⟩
    · exact le_min (by norm_num) (le_max_left 0 _)
    · exact min_le_left _ _

/-- The final rain risk is an integer in `[0, 100]`, given that any present
forecast precipitation probability lies in `[0, 100]` and that any present
historical record was produced by the aggregation. -/
theorem rainRiskFinal_int_bounds (f : Option Forecast) (h : Option Hist) (a : Option String)
    (hf : ∀ fc, f = some fc → ∀ p, fc.precipProb = some p → 0 ≤ p ∧ p ≤ 100)
    (hh : ∀ hv, h = some hv → ∃ outs, hv = historicalAggregate outs) :
    ∃ n : ℤ, rainRiskFinal f h a = (n : ℚ) ∧ 0 ≤ n ∧ n ≤ 100 := by
  have hhist : ∀ hp, h.bind (fun x => x.histProb) = some hp →
      0 ≤ hp ∧ hp ≤ 100 := by
    intro hp hbp
    obtain ⟨hv, hv1, hv2⟩ := Option.bind_eq_some.mp hbp
    obtain ⟨outs, houts⟩ := hh hv hv1
    obtain ⟨n, hn, hn0, hn1⟩ := historicalAggregate_histProb_bounds outs hp
      (by rw [← houts]; exact hv2)
    constructor
    · rw [hn]; exact_mod_cast hn0
    · rw [hn]; exact_mod_cast hn1
  have hbase : ∃ n : ℤ, rainRiskBase f h = (n : ℚ) ∧ 0 ≤ n ∧ n ≤ 100 := by
    cases hp : f.bind (fun x => x.precipProb) with
    | some fProb =>
      obtain ⟨fc, hfc1, hfc2⟩ := Option.bind_eq_some.mp hp
      obtain ⟨hp0, hp1⟩ := hf fc hfc1 fProb hfc2
      have hrw : rainRiskBase f h =
          ((jsRound ((0.7 : ℚ) * fProb +
            (0.3 : ℚ) * ((h.bind (fun x => x.histProb)).getD fProb)) : ℚ)) := by
        simp [rainRiskBase, hp]
      have hhp : 0 ≤ (h.bind (fun x => x.histProb)).getD fProb ∧
          (h.bind (fun x => x.histProb)).getD fProb ≤ 100 := by
        cases hb : h.bind (fun x => x.histProb) with
        | some hpv => simpa using hhist hpv hb
        | none => exact ⟨hp0, hp1⟩
      rw [hrw]
      exact ⟨_, rfl, jsRound_bounds (by linarith [hhp.1]) (by linarith [hhp.2])⟩
    | none =>
      cases hm : f.bind (fun x => x.precipMm) with
      | some mm =>
        obtain ⟨hr0, hr1⟩ := riskFromPrecipMm_bounds (some mm)
        have hq0 : (0 : ℚ) ≤ ((riskFromPrecipMm (some mm) : ℤ) : ℚ) := by exact_mod_cast hr0
        have hq1 : ((riskFromPrecipMm (some mm) : ℤ) : ℚ) ≤ 100 := by exact_mod_cast hr1
        have hrw : rainRiskBase f h =
            ((jsRound ((0.7 : ℚ) * ((riskFromPrecipMm (some mm) : ℤ) : ℚ) +
              (0.3 : ℚ) * ((h.bind (fun x => x.histProb)).getD
                ((riskFromPrecipMm (some mm) : ℤ) : ℚ))) : ℚ)) := by
          simp [rainRiskBase, hp, hm]
        have hhp : 0 ≤ (h.bind (fun x => x.histProb)).getD
              ((riskFromPrecipMm (some mm) : ℤ) : ℚ) ∧
            (h.bind (fun x => x.histProb)).getD
              ((riskFromPrecipMm (some mm) : ℤ) : ℚ) ≤ 100 := by
          cases hb : h.bind (fun x => x.histProb) with
          | some hpv => simpa using hhist hpv hb
          | none => exact ⟨hq0, hq1⟩
        rw [hrw]
        exact ⟨_, rfl, jsRound_bounds (by linarith [hhp.1, hq0]) (by linarith [hhp.2, hq1])⟩
      | none =>
        cases hb : h.bind (fun x => x.histProb) with
        | some hpv =>
          have hrw : rainRiskBase f h = hpv := by
            simp [rainRiskBase, hp, hm, hb]
          obtain ⟨hpv0, hpv1⟩ := hhist hpv hb
          obtain ⟨hv, hv1, hv2⟩ := Option.bind_eq_some.mp hb
          obtain ⟨outs, houts⟩ := hh hv hv1
          obtain ⟨n, hn, hn0, hn1⟩ := historicalAggregate_histProb_bounds outs hpv
            (by rw [← houts]; exact hv2)
          rw [hrw]
          exact ⟨n, hn, hn0, hn1⟩
        | none =>
          have hrw : rainRiskBase f h = 50 := by
            simp [rainRiskBase, hp, hm, hb]
          rw [hrw]
          exact ⟨50, by norm_num⟩
  obtain ⟨n, hn, hn0, hn1⟩ := hbase
  unfold rainRiskFinal
  by_cases hout : jsOutdoorTest a = true
  · rw [if_pos hout, hn]
    have hnq : (0 : ℚ) ≤ (n : ℚ) := by exact_mod_cast hn0
    have hj0 : 0 ≤ jsRound ((n : ℚ) * (1.15 : ℚ)) := by
      have hmono : jsRound 0 ≤ jsRound ((n : ℚ) * (1.15 : ℚ)) := by
        apply jsRound_mono
        nlinarith
      simpa [show jsRound 0 = 0 by rw [jsRound_eq_round]; exact round_zero] using hmono
    refine ⟨min 100 (jsRound ((n : ℚ) * (1.15 : ℚ))), ?_, ?_, ?_⟩
    · rw [Int.cast_min]
      norm_num
    · exact le_min (by norm_num) hj0
    · exact min_le_left _ _
  · rw [if_neg hout]
    exact ⟨n, hn, hn0, hn1⟩

/-- The only early error of intent resolution is the strict-mode 422. -/
theorem stage1_error_shape (env : Env) (b : Body) (r : ApiResult) (tr : List Eff)
    (h : stage1 env b = (.error r, tr)) : ∃ b1 b2 act, r = .error422 b1 b2 act := by
  cases hq : b.query with
  | none => simp [stage1, hq] at h
  | some q =>
    simp only [stage1, hq] at h
    by_cases hqa : jsTrim q.data ≠ []
    · rw [if_pos hqa] at h
      by_cases hstrict : (env.strict &&
          (!strTruthy ((env.ai q).toOption.getD ⟨none, none, none⟩).location ||
           !strTruthy (jsNullish ((env.ai q).toOption.getD ⟨none, none, none⟩).dateISO
             b.date))) = true
      · rw [if_pos hstrict] at h
        injection h with h1 h2
        injection h1 with h1'
        exact ⟨_, _, _, h1'.symm⟩
      · rw [if_neg hstrict] at h
        by_cases hmiss : (!strTruthy ((env.ai q).toOption.getD ⟨none, none, none⟩).location ||
            !strTruthy (jsNullish ((env.ai q).toOption.getD ⟨none, none, none⟩).dateISO
              b.date)) = true
        · rw [if_pos hmiss] at h
          exact absurd h (by simp)
        · rw [if_neg hmiss] at h
          exact absurd h (by simp)
    · rw [if_neg hqa] at h
      exact absurd h (by simp)

/-- A successful dispatch hands the combiner either nothing or the direct
outcome of the corresponding oracle call, for each branch. -/
theorem sourceDispatch_components (env : Env) (la lo : ℚ) (dISO : String)
    (iF w16 : Bool) (fOpt : Option Forecast) (hOpt : Option Hist) (tr : List Eff)
    (hd : sourceDispatch env la lo dISO iF w16 = (.ok (fOpt, hOpt), tr)) :
    (fOpt = none ∨ ∃ fc, env.forecast la lo dISO = .ok fc ∧ fOpt = some fc) ∧
    (hOpt = none ∨ ∃ hv, env.hist la lo dISO = .ok hv ∧ hOpt = some hv) := by
  unfold sourceDispatch at hd
  by_cases hb : (iF && w16) = true
  · rw [if_pos hb] at hd
    injection hd with h1 h2
    injection h1 with h1'
    injection h1' with hf1 hh1
    constructor
    · cases hfo : fOpt with
      | none => exact Or.inl rfl
      | some fc =>
        right
        refine ⟨fc, ?_, rfl⟩
        apply except_toOption_eq_some
        rw [hf1, hfo]
    · cases hho : hOpt with
      | none => exact Or.inl rfl
      | some hv =>
        right
        refine ⟨hv, ?_, rfl⟩
        apply except_toOption_eq_some
        rw [hh1, hho]
  · rw [if_neg hb] at hd
    cases hh2 : env.hist la lo dISO with
    | error m =>
      rw [hh2] at hd
      exact absurd hd (by simp)
    | ok hv =>
      rw [hh2] at hd
      injection hd with h1 h2
      injection h1 with h1'
      injection h1' with hf1 hh1
      exact ⟨Or.inl hf1.symm, Or.inr ⟨hv, rfl, hh1.symm⟩⟩

/-- C9: every successful response is well-formed — under the assumptions
that any forecast the oracle returns carries a precipitation probability in
`[0, 100]` and that any historical record is a product of the aggregation,
the `rainRisk` of a success is an integer in `[0, 100]` and its wind label
is one of the four labels; and `labelWind` is determined by the resolved
wind speed exactly as claimed, with "inconnu" iff the speed is null. -/
theorem c9_response_invariants (env : Env) (b : Body)
    (hf : ∀ la lo d fc, env.forecast la lo d = .ok fc →
      ∀ p, fc.precipProb = some p → 0 ≤ p ∧ p ≤ 100)
    (hh : ∀ la lo d hv, env.hist la lo d = .ok hv → ∃ outs, hv = historicalAggregate outs) :
    (∀ r w t s dd tr, POST env b = (.success r w t s dd, tr) →
      (∃ n : ℤ, r = (n : ℚ) ∧ 0 ≤ n ∧ n ≤ 100) ∧
      (w = "faible" ∨ w = "modéré" ∨ w = "fort" ∨ w = "inconnu")) ∧
    (∀ ms : Option ℚ, (labelWind ms = "inconnu" ↔ ms = none) ∧
      ∀ v, ms = some v → labelWind ms =
        (if 10 < v then "fort" else if 5 < v then "modéré" else "faible")) := by
  constructor
  · intro r w t s dd tr hsucc
    unfold POST at hsucc
    split at hsucc
    · rename_i r1 tr1 hstage
      obtain ⟨b1, b2, act, hr'⟩ := stage1_error_shape env b r1 tr1 hstage
      rw [hr'] at hsucc
      injection hsucc with h1 h2
      exact absurd h1 (by simp)
    · rename_i location date0 activity tr1 hstage
      split at hsucc
      · rename_i m tr2 hres
        injection hsucc with h1 h2
        exact absurd h1 (by simp)
      · rename_i latlon tr2 hres
        split at hsucc
        · rename_i la lo
          simp only [] at hsucc
          split at hsucc
          · injection hsucc with h1 h2
            exact absurd h1 (by simp)
          · rename_i tms hparse
            split at hsucc
            · rename_i m tr3 hdisp
              injection hsucc with h1 h2
              exact absurd h1 (by simp)
            · rename_i fOpt hOpt tr3 hdisp
              obtain ⟨hfc, hhc⟩ := sourceDispatch_components env la lo (toISODate tms)
                _ _ fOpt hOpt tr3 hdisp
              injection hsucc with h1 h2
              unfold combineResponse at h1
              injection h1 with hr hw ht hsrc hdd
              constructor
              · rw [← hr]
                apply rainRiskFinal_int_bounds fOpt hOpt activity
                · intro fc hfc2 p hp
                  rcases hfc with hnone | ⟨fc2, hok, hsome⟩
                  · rw [hnone] at hfc2
                    cases hfc2
                  · rw [hsome] at hfc2
                    injection hfc2 with he
                    exact hf la lo (toISODate tms) fc2 hok p (by rw [he]; exact hp)
                · intro hv hhv
                  rcases hhc with hnone | ⟨hv2, hok, hsome⟩
                  · rw [hnone] at hhv
                    cases hhv
                  · rw [hsome] at hhv
                    injection hhv with he
                    obtain ⟨outs, houts⟩ := hh la lo (toISODate tms) hv2 hok
                    exact ⟨outs, by rw [← he, houts]⟩
              · rw [← hw]
                simp only [labelWind]
                cases jsNullish (fOpt.bind (fun x => x.windSpeed))
                    (hOpt.bind (fun x => x.meanWind)) with
                | none => simp [labelWind]
                | some v =>
                  by_cases h10 : 10 < v
                  · simp [labelWind, h10]
                  · by_cases h5 : 5 < v
                    · simp [labelWind, h10, h5]
                    · simp [labelWind, h10, h5]
        · rename_i hnotboth
          injection hsucc with h1 h2
          exact absurd h1 (by simp)
  · intro ms
    cases ms with
    | none =>
      refine ⟨by simp [labelWind], ?_⟩
      intro v hv
      cases hv
    | some v =>
      constructor
      · simp only [labelWind]
        constructor
        · intro hC
          by_cases h10 : 10 < v
          · rw [if_pos h10] at hC
            exact absurd hC (by decide)
          · rw [if_neg h10] at hC
            by_cases h5 : 5 < v
            · rw [if_pos h5] at hC
              exact absurd hC (by decide)
            · rw [if_neg h5] at hC
              exact absurd hC (by decide)
        · intro hC
          cases hC
      · intro v2 hv2
        injection hv2 with hvv
        rw [hvv]
        simp [labelWind]

/-- Witness for C9: a run whose oracles always fail, so the response falls
back to the neutral risk 50 and the "inconnu" wind label. -/
theorem c9_response_invariants_witness :
    (∃ n : ℤ, (50 : ℚ) = (n : ℚ) ∧ 0 ≤ n ∧ n ≤ 100) ∧
    ("inconnu" = "faible" ∨ "inconnu" = "modéré" ∨ "inconnu" = "fort" ∨
      "inconnu" = "inconnu") := by
  have hrun : POST { failEnv with jsParse := (fun _ => some 86400000) }
      ⟨none, some 1, some 2, some "2025-10-10", none⟩ =
      (.success 50 "inconnu" none "GFS+ERA5" "1970-01-02",
        [.forecastFetch 1 2 "1970-01-02", .histFetch 1 2 "1970-01-02"]) := rfl
  exact (c9_response_invariants { failEnv with jsParse := (fun _ => some 86400000) }
    ⟨none, some 1, some 2, some "2025-10-10", none⟩
    (by
      intro la lo d fc hcon p hp
      simp [failEnv] at hcon)
    (by
      intro la lo d hv hcon
      simp [failEnv] at hcon)).1
    50 "inconnu" none "GFS+ERA5" "1970-01-02" _ hrun

end WeatherApi
